import Mathlib

/-!
Verification of the AS_SKILLS skill-management system (skill_manager.py,
skilled_react_agent.py) against its natural-language specification.

The Python sources are shallowly embedded: strings are Lean `String`
(lists of characters), Python dictionaries that preserve insertion order
are association lists, exceptions are `Except`, and external effects
(file system, YAML parsing, module import) are explicit environment
parameters.  Float arithmetic in the relevance matcher is modelled
exactly over `ℚ`.
-/

set_option autoImplicit false
set_option maxRecDepth 10000

namespace ASSkills

/-! ## Python string primitives -/

/-- Python `str.isspace` for the characters relevant to `str.split()` and
`str.strip()`. -/
def py_isspace (c : Char) : Bool :=
  c == ' ' || c == '\t' || c == '\n' || c == '\r' || c == '\x0b' || c == '\x0c'

/-- Substring containment on character lists, Python's `sub in s`. -/
def containsSub (pat : List Char) : List Char → Bool
  | [] => pat.isEmpty
  | c :: rest => pat.isPrefixOf (c :: rest) || containsSub pat rest

/-- Python `sub in s` on strings. -/
def py_contains (s sub : String) : Bool :=
  containsSub sub.data s.data

/-- Python `str.lower` (ASCII, which is all the sources use). -/
def py_lower (s : String) : String :=
  ⟨s.data.map Char.toLower⟩

/-- Accumulating splitter for `str.split()`: `cur` holds the reversed
characters of the word in progress. -/
def words_aux : List Char → List Char → List String
  | [], [] => []
  | [], cur => [⟨cur.reverse⟩]
  | c :: rest, cur =>
    if py_isspace c then
      match cur with
      | [] => words_aux rest []
      | _ :: _ => ⟨cur.reverse⟩ :: words_aux rest []
    else words_aux rest (c :: cur)

/-- Python `str.split()` with no argument: split on whitespace runs,
discarding empty pieces. -/
def py_split_ws (s : String) : List String :=
  words_aux s.data []

/-- Strip leading and trailing whitespace from a character list. -/
def strip_chars (l : List Char) : List Char :=
  ((l.dropWhile py_isspace).reverse.dropWhile py_isspace).reverse

/-- Python `str.strip()`. -/
def py_strip (s : String) : String :=
  ⟨strip_chars s.data⟩

/-- Python `str.startswith`. -/
def py_startswith (s pre : String) : Bool :=
  pre.data.isPrefixOf s.data

/-- Index of the first occurrence of `pat` in the list, if any. -/
def find_sub_aux (pat : List Char) : List Char → Option Nat
  | [] => if pat.isEmpty then some 0 else none
  | c :: rest =>
    if pat.isPrefixOf (c :: rest) then some 0
    else (find_sub_aux pat rest).map (· + 1)

/-- Python `str.find(sub, start)` restricted to the successful case:
`some i` is the least index `i ≥ start` where `sub` occurs, `none` when
Python would return `-1`. -/
def find_from (s sub : String) (start : Nat) : Option Nat :=
  (find_sub_aux sub.data (s.data.drop start)).map (· + start)

/-- Python `s[n:]` for a non-negative index. -/
def py_drop (s : String) (n : Nat) : String :=
  ⟨s.data.drop n⟩

/-- Python `s[a:b]` for non-negative indices. -/
def py_slice (s : String) (a b : Nat) : String :=
  ⟨(s.data.drop a).take (b - a)⟩

/-- Accumulating splitter for `str.split(sep)` with a one-character
separator. -/
def split_on_char_aux (sep : Char) : List Char → List Char → List String
  | [], cur => [⟨cur.reverse⟩]
  | c :: rest, cur =>
    if c = sep then ⟨cur.reverse⟩ :: split_on_char_aux sep rest []
    else split_on_char_aux sep rest (c :: cur)

/-- Python `str.split(sep)` for a one-character separator. -/
def py_split_on_char (s : String) (sep : Char) : List String :=
  split_on_char_aux sep s.data []

/-- Python `sep.join(parts)`. -/
def str_intercalate (sep : String) : List String → String
  | [] => ""
  | [x] => x
  | x :: y :: rest => x ++ sep ++ str_intercalate sep (y :: rest)

/-- Capitalize one word as Python `str.title` does on an alphabetic word. -/
def title_word (w : String) : String :=
  match w.data with
  | [] => ⟨[]⟩
  | c :: rest => ⟨c.toUpper :: rest.map Char.toLower⟩

/-- Python `str.title` on space-separated words (the only shape the
sources feed it). -/
def py_title (s : String) : String :=
  str_intercalate " " ((py_split_on_char s ' ').map title_word)

/-- Python `str.replace`, single-character patterns only (the sources
only replace underscores by spaces). -/
def py_replace_char (s : String) (a b : Char) : String :=
  ⟨s.data.map (fun c => if c = a then b else c)⟩

/-! ## Data model

`agentscope.tool.ToolResponse` and `agentscope.message.TextBlock` are the
response shapes the wrappers in `skill_manager.py` construct. -/

structure TextBlock where
  type : String
  text : String
deriving DecidableEq, Repr, Inhabited

structure ToolResponse where
  content : List TextBlock
  is_last : Bool
deriving DecidableEq, Repr, Inhabited

/-- A YAML scalar/sequence value as `yaml.safe_load` would produce it for
the front-matter fields the sources read. -/
inductive Yaml where
  | s (v : String)
  | l (items : List String)
  | b (v : Bool)
  | null
deriving DecidableEq, Repr, Inhabited

/-- Python truthiness of a YAML value (`not name` in the source). -/
def yaml_truthy : Yaml → Bool
  | .s v => ¬ v.data.isEmpty
  | .l items => ¬ items.isEmpty
  | .b v => v
  | .null => false

/-- Truthiness of `dict.get(key)`, which is `None` when the key is
absent. -/
def opt_truthy : Option Yaml → Bool
  | none => false
  | some y => yaml_truthy y

/-- The `SkillMetadata` dataclass.  `name` and the other front-matter
fields hold whatever YAML value the manifest supplied. -/
structure SkillMetadata where
  name : Yaml
  description : Yaml
  directory : String
  skill_file_path : String
  dependencies : Yaml
  version : Yaml
  author : Yaml
deriving DecidableEq, Repr, Inhabited

/-- A Python return-type annotation as inspected by Strategy 4. -/
inductive PyType where
  | pstr
  | pdict
  | plist
  | pbool
  | pint
  | pfloat
  | pother (name : String)
deriving DecidableEq, Repr, Inhabited

/-- Python's display of a class object, e.g. `<class \x27str\x27>`. -/
def py_type_repr : PyType → String
  | .pstr => "<class \x27str\x27>"
  | .pdict => "<class \x27dict\x27>"
  | .plist => "<class \x27list\x27>"
  | .pbool => "<class \x27bool\x27>"
  | .pint => "<class \x27int\x27>"
  | .pfloat => "<class \x27float\x27>"
  | .pother n => "<class \x27" ++ n ++ "\x27>"

/-- A module attribute as the registration strategies inspect it:
its name from `dir(module)`, whether it is callable, the
`__skill_tool__` attribute (absent, or its boolean value), its
docstring (`None` or a string), the `__skill_tool_description__`
attribute, and its `return` annotation if any. -/
structure PyAttr where
  attr_name : String
  callable : Bool
  skill_tool_tag : Option Bool
  doc : Option String
  skill_tool_desc : String
  ret_ann : Option PyType
deriving DecidableEq, Repr, Inhabited

/-- An entry of `Toolkit.tools`: the wrapper function's docstring (which
serves as the registered description) and its group. -/
structure ToolEntry where
  doc : Option String
  group : String
deriving DecidableEq, Repr, Inhabited

/-- A tool group of the toolkit. -/
structure GroupInfo where
  description : Yaml
  active : Bool
  notes : String
deriving DecidableEq, Repr, Inhabited

/-- The shared `agentscope` toolkit: named tools and named groups, in
registration order. -/
structure Toolkit where
  tools : List (String × ToolEntry)
  groups : List (String × GroupInfo)
deriving DecidableEq, Repr, Inhabited

/-- First-match association lookup (Python `dict` access for the
distinct-key maps the sources build). -/
def assoc_find {β : Type} (l : List (String × β)) (k : String) : Option β :=
  match l with
  | [] => none
  | (k₀, v) :: rest => if k₀ = k then some v else assoc_find rest k

/-! ## Tool invocation wrapper (`wrapped_tool`, skill_manager.py 292-315)

The underlying callable either returns a Python value or raises; the
values that the wrapper distinguishes are strings, `ToolResponse`
objects, and everything else (carried here by its `str(...)` rendering). -/

inductive PyResult where
  | str (v : String)
  | resp (r : ToolResponse)
  | other (str_repr : String)
deriving DecidableEq, Repr, Inhabited

inductive CallOutcome where
  | ok (v : PyResult)
  | exn (msg : String)
deriving DecidableEq, Repr, Inhabited

/-- `wrapped_tool` from `skill_manager.py`: same body in all four
registration strategies. -/
def wrapped_tool (attr_name : String) (outcome : CallOutcome) : ToolResponse :=
  match outcome with
  | .ok (.str v) => { content := [{ type := "text", text := v }], is_last := true }
  | .ok (.resp r) => r
  | .ok (.other rep) => { content := [{ type := "text", text := rep }], is_last := true }
  | .exn msg =>
    { content :=
        [{ type := "text",
           text := "Error executing " ++ attr_name ++ ": " ++ msg }],
      is_last := true }

/-! ## Registration strategies (skill_manager.py 273-519)

Each strategy walks the module attributes in `dir(module)` order,
mutating `self.toolkit.tools` and a per-call counter.  The state of a
strategy is the pair (tools so far, count so far). -/

/-- `tool_patterns` from `_register_by_naming_convention` (lines 333-337). -/
def tool_patterns : List String :=
  ["extract_", "analyze_", "process_", "convert_",
   "create_", "generate_", "check_", "get_",
   "parse_", "transform_", "validate_", "search_"]

/-- `any(pattern in attr_name.lower() for pattern in tool_patterns)`
(line 344). -/
def matches_naming (attr_name : String) : Bool :=
  tool_patterns.any (fun p => py_contains (py_lower attr_name) p)

/-- `attr_name in self.toolkit.tools` — the duplicate check each
strategy performs (lines 286, 348, 407, 466). -/
def tool_registered (tools : List (String × ToolEntry)) (attr_name : String) : Bool :=
  (assoc_find tools attr_name).isSome

/-- Strategy 1, `_register_explicit_tools` (lines 273-328): callables
carrying a truthy `__skill_tool__` marker.  The wrapper registered for
the tool carries the original docstring as its own. -/
def register_explicit_tools (module : List PyAttr) (skill_name : String)
    (tools : List (String × ToolEntry)) : List (String × ToolEntry) × Nat :=
  module.foldl
    (fun acc a =>
      if a.callable && a.skill_tool_tag == some true then
        if tool_registered acc.1 a.attr_name then acc
        else (acc.1 ++ [(a.attr_name, { doc := a.doc, group := skill_name })], acc.2 + 1)
      else acc)
    (tools, 0)

/-- Strategy 2, `_register_by_naming_convention` (lines 330-387):
untagged callables whose lower-cased name contains one of the
`tool_patterns` substrings.  The registered wrapper's docstring is the
original callable's docstring (`wrapped_tool.__doc__ =
getattr(attr, __doc__, ...)`, line 380); `_generate_tool_description`
is never invoked here.  The loop body, as a function of the
accumulated (tools, count) state: -/
def naming_step (skill_name : String) (acc : List (String × ToolEntry) × Nat)
    (a : PyAttr) : List (String × ToolEntry) × Nat :=
  if a.callable && a.skill_tool_tag.isNone && matches_naming a.attr_name then
    if tool_registered acc.1 a.attr_name then acc
    else (acc.1 ++ [(a.attr_name, { doc := a.doc, group := skill_name })], acc.2 + 1)
  else acc

/-- Strategy 2 proper: fold the loop body over `dir(module)`. -/
def register_by_naming_convention (module : List PyAttr) (skill_name : String)
    (tools : List (String × ToolEntry)) : List (String × ToolEntry) × Nat :=
  module.foldl (naming_step skill_name) (tools, 0)

/-- The skip-list of typing names in Strategy 3 (line 399), with the
source's duplicated `Optional`. -/
def typing_names : List String :=
  ["Any", "Dict", "List", "Optional", "Tuple", "Set", "Union", "Type", "Optional"]

/-- Strategy 3, `_register_by_docstring_analysis` (lines 389-446).  In
the source, everything after the guard `if (...): continue` (lines
402-445, including the registration and `count += 1`) is indented
inside the guard's branch and therefore unreachable: every loop
iteration either takes the `continue` or falls off the end of the loop
body.  The embedding keeps the guard and the two (identical) outcomes. -/
def register_by_docstring_analysis (module : List PyAttr) (_skill_name : String)
    (tools : List (String × ToolEntry)) : List (String × ToolEntry) × Nat :=
  module.foldl
    (fun acc a =>
      if ¬ a.callable || py_startswith a.attr_name "_" || a.skill_tool_tag.isSome
          || (a.doc.getD "").data.isEmpty || typing_names.contains a.attr_name then
        acc
      else
        acc)
    (tools, 0)

/-- `_is_tool_docstring` (lines 507-519). -/
def is_tool_docstring (doc : String) : Bool :=
  if doc.data.isEmpty then false
  else
    let indicators : List String :=
      ["tool:", "extract", "analyze", "process", "convert",
       "create", "generate", "check", "parse", "transform",
       "validate", "search", "function:", "method:"]
    indicators.any (fun ind => py_contains (py_lower doc) ind)

/-- `_generate_tool_description` (lines 521-546).  Note the object part
of the name is re-joined with underscores, so `extract_invoice_total`
yields `Extract invoice_total`. -/
def generate_tool_description (attr_name : String) : String :=
  let name_parts := py_split_on_char attr_name '_'
  if name_parts.length ≥ 2 then
    let action := name_parts.headD ""
    let object_name := str_intercalate "_" name_parts.tail
    let known : List String :=
      ["extract", "analyze", "process", "convert", "create", "generate",
       "check", "get", "parse", "transform", "validate", "search"]
    if known.contains action then
      title_word action ++ " " ++ object_name
    else
      py_title (py_replace_char attr_name '_' ' ')
  else
    py_title (py_replace_char attr_name '_' ' ')

/-- Strategy 4, `_register_by_type_hints` (lines 448-505): untagged,
undocumented callables with a `return` annotation of a primitive type. -/
def register_by_type_hints (module : List PyAttr) (skill_name : String)
    (tools : List (String × ToolEntry)) : List (String × ToolEntry) × Nat :=
  module.foldl
    (fun acc a =>
      if a.callable && a.skill_tool_tag.isNone && (a.doc.getD "").data.isEmpty then
        match a.ret_ann with
        | some t =>
          if t == .pstr || t == .pdict || t == .plist || t == .pbool
              || t == .pint || t == .pfloat then
            if tool_registered acc.1 a.attr_name then acc
            else
              (acc.1 ++
                 [(a.attr_name,
                   { doc := some ("Tool function with return type: " ++ py_type_repr t),
                     group := skill_name })],
               acc.2 + 1)
          else acc
        | none => acc
      else acc)
    (tools, 0)

/-! ## Manifest parsing (`_parse_skill_metadata`, skill_manager.py 85-127)

`yaml.safe_load` is an external library call; it is passed in as a
function from the front-matter text to either a YAML error or the
parsed mapping. -/

/-- A `yaml.safe_load` oracle: `.error` is a `yaml.YAMLError`, `.ok` the
parsed front-matter mapping. -/
def YamlLoad : Type := String → Except String (List (String × Yaml))

/-- `_parse_skill_metadata`: front matter must open the file with `---`
and be closed by the next `---` at index ≥ 3; missing or falsy `name`
or `description` raise; otherwise the dataclass is populated with the
source's defaults for the optional keys. -/
def parse_skill_metadata (yload : YamlLoad) (skill_dir skill_file content : String) :
    Except String SkillMetadata :=
  if py_startswith content "---" then
    match find_from content "---" 3 with
    | none => .error "Invalid YAML frontmatter format"
    | some end_index =>
      let yaml_content := py_strip (py_slice content 3 end_index)
      match yload yaml_content with
      | .error e => .error ("Invalid YAML in frontmatter: " ++ e)
      | .ok frontmatter =>
        let name := assoc_find frontmatter "name"
        let description := assoc_find frontmatter "description"
        if ¬ opt_truthy name || ¬ opt_truthy description then
          .error "Missing required fields name or description"
        else
          .ok { name := name.getD .null,
                description := description.getD .null,
                directory := skill_dir,
                skill_file_path := skill_file,
                dependencies := (assoc_find frontmatter "dependencies").getD (.l []),
                version := (assoc_find frontmatter "version").getD (.s "1.0.0"),
                author := (assoc_find frontmatter "author").getD (.s "") }
  else .error "SKILL.md must start with YAML frontmatter"

/-! ## Body extraction (load_skill, lines 152-156)

`content.find(chars, 3)` returns `-1` when absent, in which case the
slice `content[-1+3:]` starts at index 2. -/

/-- The front-matter stripping step of `load_skill`. -/
def extract_body (content : String) : String :=
  if py_startswith content "---" then
    match find_from content "---" 3 with
    | some end_index => py_strip (py_drop content (end_index + 3))
    | none => py_strip (py_drop content 2)
  else content

/-! ## Manager state and operations -/

/-- The result of loading one skill (`skill_data`, lines 174-179). -/
structure LoadedSkill where
  metadata : SkillMetadata
  content : String
  additional_resources : List (String × String)
  tools : List String
deriving DecidableEq, Repr, Inhabited

/-- The mutable state of a `SkillManager`: `discovered_skills` (keyed by
the YAML `name` value), `loaded_skills` (keyed by the `skill_name`
argument), and the shared toolkit. -/
structure ManagerState where
  discovered : List (Yaml × SkillMetadata)
  loaded : List (String × LoadedSkill)
  toolkit : Toolkit
deriving DecidableEq, Repr, Inhabited

/-- Association lookup with YAML keys (`discovered_skills[...]`). -/
def yassoc_find {β : Type} (l : List (Yaml × β)) (k : Yaml) : Option β :=
  match l with
  | [] => none
  | (k₀, v) :: rest => if k₀ = k then some v else yassoc_find rest k

/-- Dict assignment `d[k] = v` for YAML keys: overwrite in place or
append (Python dicts keep the original position on overwrite). -/
def yassoc_set {β : Type} (l : List (Yaml × β)) (k : Yaml) (v : β) : List (Yaml × β) :=
  if (yassoc_find l k).isSome then
    l.map (fun p => if p.1 = k then (k, v) else p)
  else l ++ [(k, v)]

/-- The external effects `load_skill` performs: reading a file,
importing the non-`__init__` Python files of a skill directory
(`importlib`, lines 235-247; files that fail to import are absent, the
exception being caught at line 268), and `_load_additional_resources`
(lines 186-222, a regex scan over the content plus file reads; modelled
as a function of the content and the directory). -/
structure Env where
  read_file : String → Option String
  modules : String → List (List PyAttr)
  load_resources : String → String → List (String × String)

/-- `toolkit.create_tool_group` (external `agentscope` call): record the
group under its name if it is new. -/
def create_tool_group (tk : Toolkit) (group_name : String) (description : Yaml)
    (active : Bool) (notes : String) : Toolkit :=
  if (assoc_find tk.groups group_name).isSome then tk
  else { tk with groups := tk.groups ++ [(group_name, { description := description, active := active, notes := notes })] }

/-- `toolkit.update_tool_groups` (external `agentscope` call): set the
`active` flag of each named group that exists. -/
def update_tool_groups (tk : Toolkit) (names : List String) (active : Bool) : Toolkit :=
  { tk with
    groups := tk.groups.map (fun g =>
      if names.contains g.1 then (g.1, { g.2 with active := active }) else g) }

/-- `_register_skill_tools` (lines 224-271): for each imported module,
run the four strategies in order against the shared toolkit. -/
def register_skill_tools (env : Env) (skill_name skill_dir : String)
    (tools : List (String × ToolEntry)) : List (String × ToolEntry) :=
  (env.modules skill_dir).foldl
    (fun ts m =>
      let ts1 := (register_explicit_tools m skill_name ts).1
      let ts2 := (register_by_naming_convention m skill_name ts1).1
      let ts3 := (register_by_docstring_analysis m skill_name ts2).1
      (register_by_type_hints m skill_name ts3).1)
    tools

/-- `_get_skill_tools` (lines 558-571). -/
def get_skill_tools (tk : Toolkit) (skill_name : String) : List String :=
  ((tk.tools.filter (fun t => t.2.group = skill_name)).map (fun t => t.1))

/-- The YAML `name` string under which metadata notes render; the
source interpolates the value into an f-string and only string names
occur, so render a string as itself. -/
def yaml_str (y : Yaml) : String :=
  match y with
  | .s v => v
  | .l _ => ""
  | .b _ => ""
  | .null => "None"

/-- `load_skill` (lines 129-184).  Raises when the skill is not
discovered; returns the cached entry when already loaded; otherwise
reads the manifest, strips the front matter, loads resources, creates
the (inactive) tool group, registers tools and caches the result. -/
def load_skill (env : Env) (st : ManagerState) (skill_name : String) :
    Except String (LoadedSkill × ManagerState) :=
  match yassoc_find st.discovered (.s skill_name) with
  | none => .error ("Skill " ++ skill_name ++ " not found in discovered skills")
  | some metadata =>
    match assoc_find st.loaded skill_name with
    | some cached => .ok (cached, st)
    | none =>
      match env.read_file metadata.skill_file_path with
      | none => .error ("could not open " ++ metadata.skill_file_path)
      | some content =>
        let skill_content := extract_body content
        let additional_resources := env.load_resources skill_content metadata.directory
        let tk1 := create_tool_group st.toolkit skill_name metadata.description false
          ("Skill: " ++ yaml_str metadata.name ++ "\n" ++ yaml_str metadata.description)
        let tools1 := register_skill_tools env skill_name metadata.directory tk1.tools
        let tk2 := { tk1 with tools := tools1 }
        let skill_data : LoadedSkill :=
          { metadata := metadata,
            content := skill_content,
            additional_resources := additional_resources,
            tools := get_skill_tools tk2 skill_name }
        let st2 : ManagerState :=
          { st with toolkit := tk2, loaded := st.loaded ++ [(skill_name, skill_data)] }
        .ok (skill_data, st2)

/-- `deactivate_skill` (lines 595-610): the only precondition checked is
membership in `discovered_skills`. -/
def deactivate_skill (st : ManagerState) (skill_name : String) : Bool × ManagerState :=
  if (yassoc_find st.discovered (.s skill_name)).isSome then
    (true, { st with toolkit := update_tool_groups st.toolkit [skill_name] false })
  else (false, st)

/-! ## Discovery (`discover_skills`, skill_manager.py 53-83) -/

/-- One entry of the skill directory as `iterdir` yields it: its path,
whether it is a directory, and the content of its `SKILL.md` when that
file exists. -/
structure DirEntry where
  path : String
  is_dir : Bool
  skill_file : Option String
deriving Repr, Inhabited

/-- The file system as `discover_skills` sees it. -/
structure FsEnv where
  root_exists : Bool
  entries : List DirEntry

/-- `discover_skills`: on a missing root directory, return `{}` without
touching `discovered_skills`; otherwise rebuild the index from scratch,
skipping non-directories, directories without `SKILL.md`, and manifests
that fail to parse (the exception is caught and logged). -/
def discover_skills (yload : YamlLoad) (fs : FsEnv) (st : ManagerState) :
    List (Yaml × SkillMetadata) × ManagerState :=
  if ¬ fs.root_exists then ([], st)
  else
    let skills := fs.entries.foldl
      (fun acc e =>
        if ¬ e.is_dir then acc
        else
          match e.skill_file with
          | none => acc
          | some content =>
            match parse_skill_metadata yload e.path (e.path ++ "/SKILL.md") content with
            | .error _ => acc
            | .ok metadata => yassoc_set acc metadata.name metadata)
      []
    (skills, { st with discovered := skills })

/-! ## Skill context LRU cache (skilled_react_agent.py 113-141)

`self._skill_context_cache` is an `OrderedDict[str, (content,
timestamp)]`; insertion order runs from least recently used (head) to
most recently used (tail).  `time.time()` is passed in as an explicit
timestamp. -/

/-- The cache: key, content and timestamp, LRU first. -/
abbrev Cache : Type := List (String × String × Nat)

/-- `del cache[k]` (keys are unique, so filtering removes that entry). -/
def cache_del (c : Cache) (k : String) : Cache :=
  c.filter (fun e => e.1 ≠ k)

/-- The `while len(cache) > max: del cache[next(iter(cache))]` loop of
`_add_to_cache`: drop from the least-recently-used end until the bound
holds. -/
def evict_over (max_size : Nat) : Cache → Cache
  | [] => []
  | e :: rest =>
    if (e :: rest).length > max_size then evict_over max_size rest
    else e :: rest

/-- `_add_to_cache` (lines 113-126): delete any existing entry, append
as most recently used, then evict while over the bound. -/
def add_to_cache (max_size : Nat) (c : Cache) (skill_name content : String) (ts : Nat) : Cache :=
  evict_over max_size (cache_del c skill_name ++ [(skill_name, content, ts)])

/-- `_get_from_cache` (lines 128-136): on a hit, re-append the entry as
most recently used and return its content. -/
def get_from_cache (c : Cache) (skill_name : String) : Option String × Cache :=
  match c.find? (fun e => e.1 = skill_name) with
  | none => (none, c)
  | some (_, content, ts) =>
    (some content, cache_del c skill_name ++ [(skill_name, content, ts)])

/-- `_remove_from_cache` (lines 138-141). -/
def remove_from_cache (c : Cache) (skill_name : String) : Cache :=
  cache_del c skill_name

/-! ## Relevance matcher (`_match_skills_to_task`,
skilled_react_agent.py 272-312)

The matcher reads each discovered skill's name and description as
strings; the float ratio is modelled exactly over `ℚ`. -/

/-- A discovered skill as the matcher sees it. -/
structure SkillDescriptor where
  name : String
  description : String
deriving DecidableEq, Repr, Inhabited

/-- `set(description_words)` for a descriptor (line 299). -/
def description_set (d : SkillDescriptor) : List String :=
  (py_split_ws (py_lower d.description)).dedup

/-- `set(message_words)` for the user message (line 300). -/
def message_set (user_message : String) : List String :=
  (py_split_ws (py_lower user_message)).dedup

/-- `overlap = len(description_set & message_set)` (line 306). -/
def overlap_count (user_message : String) (d : SkillDescriptor) : Nat :=
  ((description_set d).filter (fun w => (message_set user_message).contains w)).length

/-- The per-descriptor decision of the matcher loop body: immediate
match when the lower-cased name occurs in the lower-cased message,
otherwise the word-overlap ratio test with its `overlap > 0` guard. -/
def match_cond (user_message : String) (threshold : ℚ) (d : SkillDescriptor) : Bool :=
  if py_contains (py_lower user_message) (py_lower d.name) then true
  else if (description_set d).isEmpty then false
  else if 0 < overlap_count user_message d then
    decide (((overlap_count user_message d : ℚ)) / (((description_set d).length : ℚ)) ≥ threshold)
  else false

/-- `_match_skills_to_task`: the early return on an empty index, then
the append-as-you-go loop over the descriptors. -/
def match_skills_to_task (skills : List SkillDescriptor) (user_message : String)
    (threshold : ℚ) : List String :=
  if skills.isEmpty then []
  else
    skills.foldl
      (fun relevant d =>
        if match_cond user_message threshold d then relevant ++ [d.name] else relevant)
      []

/-- The matching condition as the specification words it: substring
match on the name, or a non-empty description word set whose overlap
ratio with the message word set reaches the threshold (no
`overlap > 0` guard). -/
def match_cond_spec (user_message : String) (threshold : ℚ) (d : SkillDescriptor) : Bool :=
  py_contains (py_lower user_message) (py_lower d.name) ||
    (¬ (description_set d).isEmpty &&
      decide (((overlap_count user_message d : ℚ)) / (((description_set d).length : ℚ)) ≥ threshold))

/-! ## Concrete instances used in witnesses and counterexamples -/

/-- An untagged callable with a qualifying tool docstring, claimed by no
earlier strategy (its name matches none of the naming patterns). -/
def c1_attr : PyAttr :=
  { attr_name := "fetch_report", callable := true, skill_tool_tag := none,
    doc := some "Tool: extract report data", skill_tool_desc := "", ret_ann := none }

/-- An untagged callable matching the `extract_` pattern, without a
docstring. -/
def c2_attr1 : PyAttr :=
  { attr_name := "extract_invoice_total", callable := true, skill_tool_tag := none,
    doc := none, skill_tool_desc := "", ret_ann := none }

/-- An untagged callable whose identifier contains the verb `extract`
but not `extract_`. -/
def c2_attr2 : PyAttr :=
  { attr_name := "extractor", callable := true, skill_tool_tag := none,
    doc := some "whatever", skill_tool_desc := "", ret_ann := none }

/-- An untagged callable matching the `extract_` pattern, with its own
docstring. -/
def c2_attr3 : PyAttr :=
  { attr_name := "extract_invoice_total", callable := true, skill_tool_tag := none,
    doc := some "Original docstring", skill_tool_desc := "", ret_ann := none }

/-- The cache after inserting 51 distinct entries into an empty cache
with the default bound 50. -/
def c3_fill : Cache :=
  (List.range 51).foldl (fun c i => add_to_cache 50 c (toString i) "content" 0) []

/-- Read entry `1` of the full cache, then insert one more entry,
forcing an eviction. -/
def c3_final : Cache :=
  add_to_cache 50 (get_from_cache c3_fill "1").2 "51" "content" 0

/-- A trivial YAML oracle for scenarios whose parsing branch is never
reached. -/
def c10_yload : YamlLoad := fun _ => .error "unused"

/-- A file system whose skill root is missing (it still lists entries,
which must be ignored). -/
def c10_fs : FsEnv :=
  { root_exists := false,
    entries := [{ path := "skills/pdf", is_dir := true, skill_file := some "---" }] }

/-- A manager state with a previously discovered skill, to observe that
the index survives a discovery over a missing root. -/
def c10_st : ManagerState :=
  { discovered := [(.s "old_skill", default)], loaded := [], toolkit := default }

/-- Metadata of a discovered demo skill. -/
def c5_md : SkillMetadata :=
  { name := .s "pdf_tools", description := .s "Handle pdf files",
    directory := "skills/pdf_tools", skill_file_path := "skills/pdf_tools/SKILL.md",
    dependencies := .l [], version := .s "1.0.0", author := .s "" }

/-- An environment with one skill manifest on disk and one module with
one convention-named callable, so that the first load visibly registers
a tool. -/
def c5_env : Env :=
  { read_file := fun p =>
      if p = "skills/pdf_tools/SKILL.md" then
        some "---\nname: pdf_tools\ndescription: Handle pdf files\n---\nUse the tools."
      else none,
    modules := fun d => if d = "skills/pdf_tools" then [[c2_attr3]] else [],
    load_resources := fun _ _ => [] }

/-- A manager that has discovered the demo skill but loaded nothing. -/
def c5_st : ManagerState :=
  { discovered := [(.s "pdf_tools", c5_md)], loaded := [],
    toolkit := { tools := [], groups := [] } }

/-- The result of the first load of the demo skill. -/
def c5_pair : LoadedSkill × ManagerState :=
  (load_skill c5_env c5_st "pdf_tools").toOption.getD default

/-- A YAML oracle for the two demo front matters. -/
def c6_yload : YamlLoad := fun s =>
  if s = "name: pdf_tools\ndescription: Handle pdf files" then
    .ok [("name", .s "pdf_tools"), ("description", .s "Handle pdf files")]
  else if s = "name: pdf_tools" then
    .ok [("name", .s "pdf_tools")]
  else .error "unexpected"

/-- A manifest with both required keys. -/
def c6_content_ok : String :=
  "---\nname: pdf_tools\ndescription: Handle pdf files\n---\nBody"

/-- A manifest missing `description`. -/
def c6_content_missing : String :=
  "---\nname: pdf_tools\n---\nBody"

def c8_fm : String := "\nname: tools\ndescription: Demo\n"

def c8_rest : String := "\nUse the bundled scripts.\n"

def c8_content : String := "---" ++ c8_fm ++ "---" ++ c8_rest

/-- A YAML oracle for the C8 demo manifest. -/
def c8_yload : YamlLoad := fun s =>
  if s = "name: tools\ndescription: Demo" then
    .ok [("name", .s "tools"), ("description", .s "Demo")]
  else .error "unexpected"

/-- The descriptor parsed from the C8 demo manifest. -/
def c8_md : SkillMetadata :=
  (parse_skill_metadata c8_yload "skills/tools" "skills/tools/SKILL.md" c8_content).toOption.getD default

/-- A descriptor whose description shares 3 of its 4 words with the
demo message (ratio 0.75). -/
def c4_d1 : SkillDescriptor :=
  { name := "invoices", description := "parse invoice pdf files" }

/-- A descriptor sharing no description word with the demo message. -/
def c4_d2 : SkillDescriptor :=
  { name := "emails", description := "send email newsletters safely" }

/-- A descriptor with an empty description whose name occurs in the
demo message. -/
def c4_d3 : SkillDescriptor :=
  { name := "pdf", description := "" }

def c4_skills : List SkillDescriptor := [c4_d1, c4_d2, c4_d3]

def c4_message : String := "please parse the invoice pdf now"

/-! # Theorems

General-purpose lemmas first, then one theorem per claim. -/

/-- Folding a function that never moves the accumulator is the identity. -/
theorem foldl_fixed_point {α β : Type} (f : α → β → α) (h : ∀ acc b, f acc b = acc) :
    ∀ (l : List β) (init : α), l.foldl f init = init
  | [], _ => rfl
  | b :: t, init => by rw [List.foldl_cons, h, foldl_fixed_point f h t]

/-- Association lookup across an append: the left list wins. -/
theorem assoc_find_append {β : Type} (l₁ l₂ : List (String × β)) (k : String) :
    assoc_find (l₁ ++ l₂) k = ((assoc_find l₁ k).elim (assoc_find l₂ k) some) := by
  induction l₁ with
  | nil => simp [assoc_find]
  | cons p t ih =>
    obtain ⟨k₀, v⟩ := p
    by_cases h : k₀ = k <;> simp [assoc_find, h, ih]

theorem assoc_find_append_of_some {β : Type} {l₁ : List (String × β)} {k : String}
    {v : β} (l₂ : List (String × β)) (h : assoc_find l₁ k = some v) :
    assoc_find (l₁ ++ l₂) k = some v := by
  rw [assoc_find_append, h]; rfl

theorem assoc_find_append_of_none {β : Type} {l₁ : List (String × β)} {k : String}
    (l₂ : List (String × β)) (h : assoc_find l₁ k = none) :
    assoc_find (l₁ ++ l₂) k = assoc_find l₂ k := by
  rw [assoc_find_append, h]; rfl

/-- Lookup in a one-entry map. -/
theorem assoc_find_singleton {β : Type} (k k₀ : String) (v : β) :
    assoc_find [(k₀, v)] k = if k₀ = k then some v else none := by
  simp [assoc_find]

/-- Appending a fresh entry makes it the lookup result. -/
theorem assoc_find_append_self {β : Type} (l : List (String × β)) (k : String) (v : β)
    (h : assoc_find l k = none) : assoc_find (l ++ [(k, v)]) k = some v := by
  rw [assoc_find_append_of_none _ h, assoc_find_singleton, if_pos rfl]

/-- C1: Strategy 3 (description-text heuristic) never registers
anything.  The loop body of `_register_by_docstring_analysis` after the
guard is indented inside the guard's `continue` branch and is
unreachable, so the strategy is the identity on the toolkit and always
reports zero registrations — even for an untagged, unclaimed callable
whose docstring satisfies `_is_tool_docstring` verbatim, contradicting
the specified behaviour. -/
theorem c1_docstring_strategy_is_dead_code :
    (∀ (module : List PyAttr) (skill_name : String) (tools : List (String × ToolEntry)),
        register_by_docstring_analysis module skill_name tools = (tools, 0)) ∧
    is_tool_docstring "Tool: extract report data" = true ∧
    register_by_docstring_analysis [c1_attr] "demo_skill" [] = ([], 0) := by
  refine ⟨fun module skill_name tools => ?_, by decide, by decide⟩
  unfold register_by_docstring_analysis
  exact foldl_fixed_point _ (fun acc a => by split <;> rfl) module (tools, 0)

/-- C7: the tool invocation wrapper is total and maps each outcome of
the underlying callable as specified: strings pass through as text,
`ToolResponse` results pass through unchanged, other values are coerced
to their textual representation, and exceptions become a textual error
response (never propagating). -/
theorem c7_wrapped_tool_totality :
    (∀ (n v : String), wrapped_tool n (.ok (.str v)) =
        { content := [{ type := "text", text := v }], is_last := true }) ∧
    (∀ (n : String) (r : ToolResponse), wrapped_tool n (.ok (.resp r)) = r) ∧
    (∀ (n rep : String), wrapped_tool n (.ok (.other rep)) =
        { content := [{ type := "text", text := rep }], is_last := true }) ∧
    (∀ (n msg : String), wrapped_tool n (.exn msg) =
        { content := [{ type := "text", text := "Error executing " ++ n ++ ": " ++ msg }],
          is_last := true }) :=
  ⟨fun _ _ => rfl, fun _ _ => rfl, fun _ _ => rfl, fun _ _ => rfl⟩

/-- C9: `deactivate_skill` succeeds exactly when the skill name is in
the discovered index — in particular it returns `true` for a skill that
was never loaded or activated, since the loaded map and the group state
play no part in the test. -/
theorem c9_deactivate_checks_only_discovery :
    ∀ (st : ManagerState) (skill_name : String),
      (deactivate_skill st skill_name).1 =
        (yassoc_find st.discovered (.s skill_name)).isSome := by
  intro st n
  unfold deactivate_skill
  by_cases h : (yassoc_find st.discovered (.s n)).isSome = true <;> simp [h]

/-- C10: when the skill root directory does not exist,
`discover_skills` returns the empty mapping without raising and leaves
the previously discovered index untouched. -/
theorem c10_discover_missing_root (yload : YamlLoad) (fs : FsEnv) (st : ManagerState)
    (h : fs.root_exists = false) :
    discover_skills yload fs st = ([], st) := by
  unfold discover_skills
  simp [h]

/-- Witness for C10 at a file system with a missing root, a non-trivial
entry list and a previously populated index. -/
theorem c10_discover_missing_root_witness :
    discover_skills c10_yload c10_fs c10_st = ([], c10_st) :=
  c10_discover_missing_root c10_yload c10_fs c10_st rfl

/-- C2 counterexample: running Strategy 2 on a module with the
callables `extract_invoice_total` (no docstring) and `extractor`
registers only the former — `extractor` contains the verb `extract` but
not `extract_`, so the claim's "identifier contains one of the verb
prefixes" fails on it — and registers it with the callable's own
docstring (`None`), not the generated description; even the unused
helper `_generate_tool_description` would produce
`Extract invoice_total`, not `Extract invoice total`. -/
theorem c2_counterexample :
    assoc_find (register_by_naming_convention [c2_attr1, c2_attr2] "demo_skill" []).1
        "extract_invoice_total" = some { doc := none, group := "demo_skill" } ∧
    assoc_find (register_by_naming_convention [c2_attr1, c2_attr2] "demo_skill" []).1
        "extractor" = none ∧
    generate_tool_description "extract_invoice_total" = "Extract invoice_total" := by
  refine ⟨by decide, by decide, by decide⟩

/-- A `naming_step` never disturbs an existing registration. -/
theorem naming_step_preserves (skill : String) (acc : List (String × ToolEntry) × Nat)
    (a : PyAttr) {k : String} {v : ToolEntry}
    (h : assoc_find acc.1 k = some v) :
    assoc_find (naming_step skill acc a).1 k = some v := by
  unfold naming_step
  split
  · split
    · exact h
    · exact assoc_find_append_of_some _ h
  · exact h

/-- Folding `naming_step` never disturbs an existing registration. -/
theorem naming_fold_preserves (skill : String) (l : List PyAttr)
    (acc : List (String × ToolEntry) × Nat) {k : String} {v : ToolEntry}
    (h : assoc_find acc.1 k = some v) :
    assoc_find ((l.foldl (naming_step skill) acc).1) k = some v := by
  induction l generalizing acc with
  | nil => exact h
  | cons b t ih => exact ih _ (naming_step_preserves skill acc b h)

/-- A `naming_step` on an attribute with a different name does not
affect lookup of `k`. -/
theorem naming_step_other (skill : String) (acc : List (String × ToolEntry) × Nat)
    (a : PyAttr) {k : String} (hne : k ≠ a.attr_name)
    (h : assoc_find acc.1 k = none) :
    assoc_find (naming_step skill acc a).1 k = none := by
  unfold naming_step
  split
  · split
    · exact h
    · rw [assoc_find_append_of_none _ h, assoc_find_singleton,
        if_neg (fun hh => hne hh.symm)]
  · exact h

/-- C2 (amended): for every module, every untagged callable whose
lower-cased identifier contains one of the naming patterns — a verb
followed by an underscore — and whose name is not yet registered is
registered by Strategy 2 under its own name, and the registered
description is the callable's own docstring (possibly `None`), not a
description generated from the identifier. -/
theorem c2_naming_registers_with_own_docstring
    (module : List PyAttr) (skill_name : String) (tools : List (String × ToolEntry))
    (a : PyAttr)
    (hmem : a ∈ module)
    (hnodup : (module.map PyAttr.attr_name).Nodup)
    (hcall : a.callable = true)
    (htag : a.skill_tool_tag = none)
    (hmatch : matches_naming a.attr_name = true)
    (hfresh : assoc_find tools a.attr_name = none) :
    assoc_find (register_by_naming_convention module skill_name tools).1 a.attr_name =
      some { doc := a.doc, group := skill_name } := by
  unfold register_by_naming_convention
  suffices key : ∀ (l : List PyAttr) (acc : List (String × ToolEntry) × Nat),
      a ∈ l → (l.map PyAttr.attr_name).Nodup →
      assoc_find acc.1 a.attr_name = none →
      assoc_find ((l.foldl (naming_step skill_name) acc).1) a.attr_name =
        some { doc := a.doc, group := skill_name } by
    exact key module (tools, 0) hmem hnodup hfresh
  intro l
  induction l with
  | nil => intro acc hmem' _ _; exact absurd hmem' (List.not_mem_nil a)
  | cons b t ih =>
    intro acc hmem' hnodup' hfresh'
    rw [List.map_cons, List.nodup_cons] at hnodup'
    rw [List.foldl_cons]
    rcases List.mem_cons.mp hmem' with rfl | hmem_t
    · have hstep : naming_step skill_name acc a =
          (acc.1 ++ [(a.attr_name, { doc := a.doc, group := skill_name })], acc.2 + 1) := by
        unfold naming_step
        rw [hcall, htag, hmatch]
        simp only [Option.isNone_none, Bool.and_self, Bool.true_and, if_true]
        rw [if_neg]
        unfold tool_registered
        rw [hfresh']
        simp
      rw [hstep]
      refine naming_fold_preserves skill_name t _ ?_
      rw [assoc_find_append_of_none _ hfresh', assoc_find_singleton, if_pos rfl]
    · have hne : a.attr_name ≠ b.attr_name := by
        intro he
        exact hnodup'.1 (he ▸ List.mem_map_of_mem PyAttr.attr_name hmem_t)
      exact ih _ hmem_t hnodup'.2 (naming_step_other skill_name acc b hne hfresh')

/-- Witness for C2's amended theorem: a single-function module whose
`extract_invoice_total` carries its own docstring ends up registered
with exactly that docstring. -/
theorem c2_naming_registers_witness :
    assoc_find (register_by_naming_convention [c2_attr3] "demo_skill" []).1
        "extract_invoice_total" =
      some { doc := some "Original docstring", group := "demo_skill" } :=
  c2_naming_registers_with_own_docstring [c2_attr3] "demo_skill" [] c2_attr3
    (List.mem_singleton.mpr rfl) (by decide) rfl rfl (by decide) rfl

/-- The eviction loop of `_add_to_cache` always leaves at most
`max_size` entries. -/
theorem evict_over_length (m : Nat) (c : Cache) : (evict_over m c).length ≤ m := by
  induction c with
  | nil => simp [evict_over]
  | cons e rest ih =>
    unfold evict_over
    by_cases h : (e :: rest).length > m
    · rw [if_pos h]; exact ih
    · rw [if_neg h]; omega

/-- C3: the context cache respects its size bound after every put;
inserting 51 distinct entries with bound 50 leaves exactly 50 entries
with the least-recently-used one (`"0"`) evicted, keeping entries
`"1"`..`"50"` in order; and after reading entry `"1"`, the next
insertion that forces an eviction removes the untouched older entry
`"2"` while the just-read `"1"` survives. -/
theorem c3_cache_bound_and_lru :
    (∀ (max_size : Nat) (c : Cache) (skill_name content : String) (ts : Nat),
        (add_to_cache max_size c skill_name content ts).length ≤ max_size) ∧
    (c3_fill.length = 50 ∧
      c3_fill.map (fun e => e.1) = (List.range 50).map (fun i => toString (i + 1))) ∧
    (c3_final.length = 50 ∧
      (c3_final.map (fun e => e.1)).contains "1" = true ∧
      (c3_final.map (fun e => e.1)).contains "2" = false) :=
  ⟨fun m _ _ _ _ => evict_over_length m _,
   ⟨by decide, by decide⟩,
   ⟨by decide, by decide, by decide⟩⟩

/-- The matcher loop with its running accumulator equals
filter-then-project. -/
theorem match_fold_append (user_message : String) (threshold : ℚ)
    (l : List SkillDescriptor) :
    ∀ acc : List String,
      l.foldl (fun relevant d =>
          if match_cond user_message threshold d then relevant ++ [d.name] else relevant) acc
        = acc ++ (l.filter (match_cond user_message threshold)).map SkillDescriptor.name := by
  induction l with
  | nil => intro acc; simp
  | cons d t ih =>
    intro acc
    rw [List.foldl_cons]
    by_cases h : match_cond user_message threshold d = true
    · rw [if_pos h, ih, List.filter_cons_of_pos h]
      simp
    · rw [if_neg h, ih, List.filter_cons_of_neg (by simp [h])]

/-- For a positive threshold, the source's matching condition (with its
`overlap > 0` guard) coincides with the specified condition. -/
theorem match_cond_eq_spec (user_message : String) (threshold : ℚ) (hth : 0 < threshold)
    (d : SkillDescriptor) :
    match_cond user_message threshold d = match_cond_spec user_message threshold d := by
  unfold match_cond match_cond_spec
  by_cases h1 : py_contains (py_lower user_message) (py_lower d.name) = true
  · simp [h1]
  · by_cases h2 : (description_set d).isEmpty = true
    · simp [h1, h2]
    · by_cases h3 : 0 < overlap_count user_message d
      · simp [h1, h2, h3]
      · have h0 : overlap_count user_message d = 0 := by omega
        have hno : ¬ (((overlap_count user_message d : ℚ)) /
            (((description_set d).length : ℚ)) ≥ threshold) := by
          rw [h0]
          push_cast
          rw [zero_div]
          exact not_le.mpr hth
        simp [h1, h2, h3, hno]

/-- C4: for every task text, descriptor list and positive threshold,
the matcher returns exactly the names of the descriptors satisfying
the specified condition — substring match on the name, or a non-empty
description word set with overlap ratio at least the threshold — in
descriptor iteration order (deterministic, not relevance-ranked); a
descriptor with an empty description word set is never matched via the
ratio. -/
theorem c4_matcher_filters_by_spec_condition
    (skills : List SkillDescriptor) (user_message : String) (threshold : ℚ)
    (hth : 0 < threshold) :
    match_skills_to_task skills user_message threshold =
      (skills.filter (match_cond_spec user_message threshold)).map SkillDescriptor.name := by
  unfold match_skills_to_task
  by_cases hemp : skills.isEmpty = true
  · rw [if_pos hemp]
    cases skills with
    | nil => simp
    | cons d t => simp at hemp
  · rw [if_neg hemp, match_fold_append, List.nil_append]
    congr 1
    apply List.filter_congr
    intro d _
    exact match_cond_eq_spec user_message threshold hth d

/-- Witness for C4: at threshold 7/10, the descriptor sharing 3 of its
4 description words matches, the one sharing none does not, and the
empty-description descriptor matches only via its name; the matcher
returns the two names in descriptor order. -/
theorem c4_matcher_witness :
    match_skills_to_task c4_skills c4_message (7/10) =
      (c4_skills.filter (match_cond_spec c4_message (7/10))).map SkillDescriptor.name ∧
    match_skills_to_task c4_skills c4_message (7/10) = ["invoices", "pdf"] := by
  constructor
  · exact c4_matcher_filters_by_spec_condition c4_skills c4_message (7/10) (by norm_num)
  · have h1 : match_cond c4_message (7/10) c4_d1 = true := by
      unfold match_cond
      rw [if_neg (by decide), if_neg (by decide), if_pos (by decide)]
      show decide ((((3:ℕ) : ℚ)) / (((4:ℕ) : ℚ)) ≥ 7/10) = true
      norm_num
    have h2 : match_cond c4_message (7/10) c4_d2 = false := by
      unfold match_cond
      rw [if_neg (by decide), if_neg (by decide), if_neg (by decide)]
    have h3 : match_cond c4_message (7/10) c4_d3 = true := by
      unfold match_cond
      rw [if_pos (by decide)]
    unfold match_skills_to_task c4_skills
    rw [if_neg (by decide)]
    simp only [List.foldl_cons, List.foldl_nil, h1, h2, h3, if_true, if_false]
    rfl

/-- Loading a skill that is discovered and already cached returns the
cached entry and leaves the state untouched. -/
theorem load_skill_cached (env : Env) (st : ManagerState) (skill_name : String)
    (data : LoadedSkill) (md : SkillMetadata)
    (hd : yassoc_find st.discovered (.s skill_name) = some md)
    (hl : assoc_find st.loaded skill_name = some data) :
    load_skill env st skill_name = .ok (data, st) := by
  unfold load_skill
  rw [hd, hl]

/-- C5: `load_skill` is idempotent — if a first load returns a skill
and a post-state, loading again in that post-state returns the very
same skill and the very same state, so tool extraction and
registration happen exactly once. -/
theorem c5_load_idempotent (env : Env) (st : ManagerState) (skill_name : String)
    (data : LoadedSkill) (st' : ManagerState)
    (h : load_skill env st skill_name = .ok (data, st')) :
    load_skill env st' skill_name = .ok (data, st') := by
  unfold load_skill at h
  cases hd : yassoc_find st.discovered (.s skill_name) with
  | none =>
    simp only [hd] at h
    exact Except.noConfusion h
  | some md =>
    simp only [hd] at h
    cases hl : assoc_find st.loaded skill_name with
    | some cached =>
      simp only [hl, Except.ok.injEq, Prod.mk.injEq] at h
      obtain ⟨rfl, rfl⟩ := h
      exact load_skill_cached env st skill_name cached md hd hl
    | none =>
      simp only [hl] at h
      cases hr : env.read_file md.skill_file_path with
      | none =>
        simp only [hr] at h
        exact Except.noConfusion h
      | some content =>
        simp only [hr, Except.ok.injEq, Prod.mk.injEq] at h
        obtain ⟨hdata, hst⟩ := h
        subst hdata
        subst hst
        exact load_skill_cached env _ skill_name _ md hd (assoc_find_append_self _ _ _ hl)

/-- Witness for C5: the first load of the demo skill succeeds and the
second load returns the identical pair. -/
theorem c5_load_idempotent_witness :
    load_skill c5_env c5_pair.2 "pdf_tools" = .ok (c5_pair.1, c5_pair.2) :=
  c5_load_idempotent c5_env c5_st "pdf_tools" c5_pair.1 c5_pair.2 (by rfl)

/-- C6: manifest validation.  Whenever the front matter parses to a
mapping in which `name` or `description` is missing or falsy, parsing
fails with the validation error and returns no descriptor; whenever
both are present and truthy, parsing returns the fully populated
descriptor, defaulting `dependencies` to the empty list, `version` to
`1.0.0` and `author` to the empty string when absent. -/
theorem c6_manifest_validation :
    (∀ (yload : YamlLoad) (skill_dir skill_file content : String) (end_index : Nat)
        (fm : List (String × Yaml)),
        py_startswith content "---" = true →
        find_from content "---" 3 = some end_index →
        yload (py_strip (py_slice content 3 end_index)) = .ok fm →
        (opt_truthy (assoc_find fm "name") = false ∨
          opt_truthy (assoc_find fm "description") = false) →
        parse_skill_metadata yload skill_dir skill_file content =
          .error "Missing required fields name or description") ∧
    (∀ (yload : YamlLoad) (skill_dir skill_file content : String) (end_index : Nat)
        (fm : List (String × Yaml)),
        py_startswith content "---" = true →
        find_from content "---" 3 = some end_index →
        yload (py_strip (py_slice content 3 end_index)) = .ok fm →
        opt_truthy (assoc_find fm "name") = true →
        opt_truthy (assoc_find fm "description") = true →
        parse_skill_metadata yload skill_dir skill_file content =
          .ok { name := (assoc_find fm "name").getD .null,
                description := (assoc_find fm "description").getD .null,
                directory := skill_dir,
                skill_file_path := skill_file,
                dependencies := (assoc_find fm "dependencies").getD (.l []),
                version := (assoc_find fm "version").getD (.s "1.0.0"),
                author := (assoc_find fm "author").getD (.s "") }) := by
  constructor
  · intro yload d f content ei fm h1 h2 h3 h4
    unfold parse_skill_metadata
    rw [if_pos h1]
    simp only [h2, h3]
    rcases h4 with h4 | h4 <;> simp [h4]
  · intro yload d f content ei fm h1 h2 h3 h4 h5
    unfold parse_skill_metadata
    rw [if_pos h1]
    simp only [h2, h3]
    simp [h4, h5]

/-- Witness for C6: a manifest missing `description` fails with the
validation error; a manifest with both keys yields the descriptor with
all defaults filled in. -/
theorem c6_manifest_validation_witness :
    parse_skill_metadata c6_yload "skills/pdf_tools" "skills/pdf_tools/SKILL.md"
        c6_content_missing = .error "Missing required fields name or description" ∧
    parse_skill_metadata c6_yload "skills/pdf_tools" "skills/pdf_tools/SKILL.md"
        c6_content_ok =
      .ok { name := .s "pdf_tools", description := .s "Handle pdf files",
            directory := "skills/pdf_tools",
            skill_file_path := "skills/pdf_tools/SKILL.md",
            dependencies := .l [], version := .s "1.0.0", author := .s "" } := by
  constructor
  · exact c6_manifest_validation.1 c6_yload "skills/pdf_tools" "skills/pdf_tools/SKILL.md"
      c6_content_missing ((find_from c6_content_missing "---" 3).getD 0)
      [("name", .s "pdf_tools")]
      (by decide) (by decide) (by rfl) (Or.inr (by decide))
  · exact c6_manifest_validation.2 c6_yload "skills/pdf_tools" "skills/pdf_tools/SKILL.md"
      c6_content_ok ((find_from c6_content_ok "---" 3).getD 0)
      [("name", .s "pdf_tools"), ("description", .s "Handle pdf files")]
      (by decide) (by decide) (by rfl) (by decide) (by decide)

/-- Character-level append of strings. -/
theorem data_append (a b : String) : (a ++ b).data = a.data ++ b.data := by
  cases a; cases b; rfl

/-- A list is a (boolean) prefix of itself followed by anything. -/
theorem isPrefixOf_append_self : ∀ (p x : List Char), p.isPrefixOf (p ++ x) = true
  | [], x => by cases x <;> rfl
  | c :: t, x => by
    simp only [List.cons_append, List.isPrefixOf_cons₂_self]
    exact isPrefixOf_append_self t x

/-- C8: body extraction.  For a manifest made of front matter between
the three-character markers followed by a body, where the end marker
found from index 3 is the one closing the front matter and parsing
succeeds, the extracted body is the text after the closing marker,
whitespace-trimmed; text that does not begin with the start marker is
returned unchanged. -/
theorem c8_body_extraction :
    (∀ (yload : YamlLoad) (skill_dir skill_file fm rest : String) (md : SkillMetadata),
        find_from ("---" ++ fm ++ "---" ++ rest) "---" 3 = some (3 + fm.length) →
        parse_skill_metadata yload skill_dir skill_file ("---" ++ fm ++ "---" ++ rest) =
          .ok md →
        extract_body ("---" ++ fm ++ "---" ++ rest) = py_strip rest) ∧
    (∀ content : String,
        py_startswith content "---" = false → extract_body content = content) := by
  constructor
  · intro yload d f fm rest md hfind _hparse
    unfold extract_body
    have hdata : ("---" ++ fm ++ "---" ++ rest).data =
        ("---".data ++ fm.data ++ "---".data) ++ rest.data := by
      rw [data_append, data_append, data_append]
    have hsw : py_startswith ("---" ++ fm ++ "---" ++ rest) "---" = true := by
      unfold py_startswith
      rw [hdata, List.append_assoc, List.append_assoc]
      exact isPrefixOf_append_self _ _
    rw [if_pos hsw]
    simp only [hfind]
    have hlen : ("---".data ++ fm.data ++ "---".data).length = 3 + fm.length + 3 := by
      simp [List.length_append]
      omega
    have hdrop : py_drop ("---" ++ fm ++ "---" ++ rest) (3 + fm.length + 3) = rest := by
      unfold py_drop
      rw [hdata, ← hlen, List.drop_left]
    rw [hdrop]
  · intro content h
    unfold extract_body
    rw [if_neg (by simp [h])]

/-- Witness for C8: the demo manifest's body round-trips (trimmed), and
text without front matter passes through unchanged. -/
theorem c8_body_extraction_witness :
    extract_body c8_content = py_strip c8_rest ∧
    extract_body c8_content = "Use the bundled scripts." ∧
    extract_body "No front matter here" = "No front matter here" :=
  ⟨c8_body_extraction.1 c8_yload "skills/tools" "skills/tools/SKILL.md" c8_fm c8_rest c8_md
      (by decide) (by rfl),
   by decide,
   c8_body_extraction.2 "No front matter here" (by decide)⟩

end ASSkills
